import Mathlib

/-!
Verification of the grefsen compositor entry point (src/compositor/main.cpp)
against its specification.

Shallow embedding: the pure decision logic of the single source file is
translated into executable Lean definitions.  Machine integers that cannot
overflow in context (elapsed milliseconds, pids, line numbers) become `Nat`
or `Int`; C strings and `QString` become `String`, with characters standing
for bytes (all concrete inputs in the source and the claims are ASCII);
side-effecting steps become explicit event lists in source order.
-/

set_option autoImplicit false

namespace Grefsen

/-! ### Basic geometry (QRect, QScreen, QWindow) -/

/-- A `QRect`: origin and size, in integer pixels. -/
structure Rect where
  x : Int
  y : Int
  width : Int
  height : Int
  deriving DecidableEq

/-- A `QScreen` as the entry point uses it: `name()` and `geometry()`
(physicalSize and dpi are only printed by `screenCheck`, never branched on). -/
structure Screen where
  name : String
  geometry : Rect
  deriving DecidableEq

/-- A top-level `QWindow` found under the QML root.  The handle is opaque;
`naturalGeometry` is the geometry the window has when it is not forced to a
screen's bounds (used by `showNormal`). -/
structure Window where
  id : Nat
  naturalGeometry : Rect
  deriving DecidableEq

/-! ### LogSink: the `qtMsgLog` message handler (main.cpp lines 116-150) -/

/-- `QtMsgType`, the severity of a log record. -/
inductive QtMsgType where
  | QtDebugMsg
  | QtInfoMsg
  | QtWarningMsg
  | QtCriticalMsg
  | QtFatalMsg
  deriving DecidableEq

/-- The `switch (type)` of `qtMsgLog` (lines 121-137): the single severity
character written into the timestamp field. -/
def typeChar : QtMsgType → Char
  | .QtDebugMsg => 'd'
  | .QtInfoMsg => 'i'
  | .QtWarningMsg => 'W'
  | .QtCriticalMsg => '!'
  | .QtFatalMsg => 'F'

/-- `QMessageLogContext` as `qtMsgLog` reads it: `context.function` (a C
string that may be null, hence `Option`) and `context.line` (an `int`). -/
structure MessageLogContext where
  function : Option String
  line : Int
  deriving DecidableEq

/-- C `snprintf` with a 64-byte buffer (`char buf[64]`): at most 63
characters are stored, the rest is truncated (one byte is reserved for the
terminating NUL).  `log.write(buf)` then writes exactly the stored
characters. -/
def snprintf64 (s : String) : String :=
  String.mk (s.data.take 63)

/-- printf `%6lld`: decimal rendering right-justified with spaces to a
minimum width of 6 (a longer rendering is not cut). -/
def fmtWidth6 (n : Nat) : String :=
  String.mk (List.replicate (6 - (toString n).length) ' ') ++ toString n

/-- printf `%03lld`: decimal rendering zero-padded to a minimum width
of 3. -/
def fmtZero3 (n : Nat) : String :=
  String.mk (List.replicate (3 - (toString n).length) '0') ++ toString n

/-- The first `snprintf` of `qtMsgLog` (line 140):
`"[%6lld.%03lld %c] "` applied to `ts / 1000`, `ts % 1000` and the severity
character.  `ts = sinceStartup.elapsed()` is the nonnegative monotonic
offset in milliseconds since process start, modelled as `Nat`. -/
def timestampField (ts : Nat) (c : Char) : String :=
  snprintf64 ("[" ++ fmtWidth6 (ts / 1000) ++ "." ++ fmtZero3 (ts % 1000)
    ++ " " ++ c.toString ++ "] ")

/-- The text the second `snprintf` of `qtMsgLog` (line 143) formats into the
64-byte buffer, before truncation: `"%s:%d: "` applied to `context.function`
and `context.line`. -/
def originText (function : String) (line : Int) : String :=
  function ++ ":" ++ toString line ++ ": "

/-- The origin segment actually written (line 143-144): the origin text
truncated by the 64-byte buffer. -/
def originField (function : String) (line : Int) : String :=
  snprintf64 (originText function line)

/-- The successive `log.write` calls one invocation of `qtMsgLog` performs,
in source order (lines 140-147): timestamp field, origin field when
`context.function` is non-null, the message, a newline.  The message is
written directly (`log.write(msg.toUtf8())`), not through the 64-byte
buffer. -/
def qtMsgLogWrites (ts : Nat) (type : QtMsgType) (ctx : MessageLogContext)
    (msg : String) : List String :=
  [timestampField ts (typeChar type)] ++
  (match ctx.function with
   | some f => [originField f ctx.line]
   | none => []) ++
  [msg, "\n"]

/-- Everything one invocation of `qtMsgLog` appends to the log file. -/
def qtMsgLogOutput (ts : Nat) (type : QtMsgType) (ctx : MessageLogContext)
    (msg : String) : String :=
  String.join (qtMsgLogWrites ts type ctx msg)

/-- An observable step of `qtMsgLog`: a write to the log file, or the
`abort()` call that terminates the process. -/
inductive LogEvent where
  | write (s : String)
  | abort
  deriving DecidableEq

/-- The full event sequence of one `qtMsgLog` invocation (lines 138-149):
the writes, then — exactly when the severity is `QtFatalMsg` — `abort()`
(line 148-149), after which nothing further executes. -/
def qtMsgLogEvents (ts : Nat) (type : QtMsgType) (ctx : MessageLogContext)
    (msg : String) : List LogEvent :=
  (qtMsgLogWrites ts type ctx msg).map LogEvent.write ++
  (if type = QtMsgType.QtFatalMsg then [LogEvent.abort] else [])

/-! ### Display selection (main.cpp lines 225-238) -/

/-- `QString::compare(a, b, Qt::CaseInsensitive) == 0`, restricted to the
ASCII names the entry point deals in: the two strings are equal after
lowercasing every character. -/
def qtCaseInsensitiveEq (a b : String) : Bool :=
  a.data.map Char.toLower == b.data.map Char.toLower

/-- The `keepers` loop (lines 227-230): keep, in enumeration order, exactly
the screens whose `name()` occurs case-insensitively in the requested list
(`scrNames.contains(scr->name(), Qt::CaseInsensitive)`). -/
def filterScreens (scrNames : List String) (screens : List Screen) : List Screen :=
  screens.filter (fun scr => scrNames.any (fun n => qtCaseInsensitiveEq n scr.name))

/-! ### Window-to-screen assignment (main.cpp lines 263-278) -/

/-- The placement the loop body performs for one (window, screen) pair:
`setScreen(screen)` always; then either `showNormal()` (windowed mode: no
geometry write, the `geometry` field stays `none`) or
`setGeometry(screen->geometry())` followed by `showFullScreen()`. -/
structure Placement where
  window : Window
  screen : Screen
  geometry : Option Rect
  fullScreen : Bool
  deriving DecidableEq

/-- Body of the `while` loop (lines 266-278) for one pair. -/
def placeOne (w : Window) (s : Screen) (windowed : Bool) : Placement :=
  if windowed then
    { window := w, screen := s, geometry := none, fullScreen := false }
  else
    { window := w, screen := s, geometry := some s.geometry, fullScreen := true }

/-- The `while (windowIter != windows.end() && screenIter != screens.end())`
loop (lines 264-278): both iterators advance together, so the loop walks the
two lists in lockstep and stops at the shorter one. -/
def assignLoop (windows : List Window) (screens : List Screen)
    (windowed : Bool) : List Placement :=
  match windows, screens with
  | w :: ws, s :: ss => placeOne w s windowed :: assignLoop ws ss windowed
  | _, _ => []

/-- The (window, screen) pair of a placement, forgetting the mode-dependent
geometry actions. -/
def pairOf (p : Placement) : Window × Screen :=
  (p.window, p.screen)

/-- Modelled from the spec: the geometry in which the external scene API
shows a placed window.  `setGeometry` fixes the geometry exactly;
`showNormal` without a geometry write shows the window in its natural
(non-fullscreen) size, positioned at the origin of the screen it was
assigned to by `setScreen`. -/
def shownGeometry (p : Placement) : Rect :=
  match p.geometry with
  | some r => r
  | none =>
    { x := p.screen.geometry.x, y := p.screen.geometry.y,
      width := p.window.naturalGeometry.width,
      height := p.window.naturalGeometry.height }

/-! ### CrashGuard: `signalHandler` (main.cpp lines 54-76) -/

/-- Result of the `fork()` at line 61, as the `switch` cases it:
`-1` (error), `0` (child), or a positive child pid (parent). -/
inductive ForkResult where
  | failed
  | inChild
  | inParent (childPid : Int)
  deriving DecidableEq

/-- An observable action of `signalHandler`. `exec` carries the path and the
full argv; on success it replaces the process, so actions listed after it
occur only if it fails.  `exitWith` is `_exit`. -/
inductive HandlerAction where
  | killProc (pid : Int) (sig : Int)
  | writeStderr (s : String)
  | exec (path : String) (argv : List String)
  | setPtracer (pid : Int)
  | waitFor (pid : Int)
  | exitWith (code : Int)
  deriving DecidableEq

/-- The `fprintf(stderr, "crashed (PID %lld SIG %d): respawn %s\n", ...)`
notice of line 67. -/
def crashNotice (gpid : Int) (sig : Int) (path : String) : String :=
  "crashed (PID " ++ toString gpid ++ " SIG " ++ toString sig ++ "): respawn "
    ++ path ++ "\n"

/-- `signalHandler` (lines 54-76) as the action sequence of each `switch`
branch, parameterised by the fork outcome, the trapped signal number, and
the two globals it reads (`grefsonPID`, `grefsonExecutablePath`).
`EXIT_FAILURE` is 1.  The child branch (lines 65-69) kills the original
process, writes the crash notice, and calls
`execl(path, path, (char *) 0)` — argv is exactly `[path]`, no further
arguments — falling through to `_exit(EXIT_FAILURE)` only if the exec
fails.  The parent branch (lines 70-74) is
`prctl(PR_SET_PTRACER, pid, ...)`, `waitpid(pid, 0, 0)`,
`_exit(EXIT_FAILURE)`.  The error branch (`fork() == -1`) does nothing and
returns, falling through to default fatal termination. -/
def signalHandler (fr : ForkResult) (sig : Int) (gpid : Int)
    (path : String) : List HandlerAction :=
  match fr with
  | .failed => []
  | .inChild =>
    [HandlerAction.killProc gpid 9,
     HandlerAction.writeStderr (crashNotice gpid sig path),
     HandlerAction.exec path [path],
     HandlerAction.exitWith 1]
  | .inParent childPid =>
    [HandlerAction.setPtracer childPid,
     HandlerAction.waitFor childPid,
     HandlerAction.exitWith 1]

/-! ### CrashGuard: handler installation (main.cpp lines 78-114) -/

/-- The `sa_flags` bits `setupSignalHandler` can set on a `sigaction`. -/
structure SigActionFlags where
  resetHand : Bool
  noDefer : Bool
  onStack : Bool
  deriving DecidableEq

/-- Line 107: `sa.sa_flags = SA_RESETHAND | SA_NODEFER | SA_ONSTACK`. -/
def installedFlags : SigActionFlags :=
  { resetHand := true, noDefer := true, onStack := true }

/-- The disposition of a signal: the OS default (which terminates the
process for the fatal signals handled here) or an installed handler with
its flags. -/
inductive Disposition where
  | defaultTerminate
  | custom (flags : SigActionFlags)
  deriving DecidableEq

/-- Modelled from the spec: the situation while the handler runs, per POSIX
`sigaction` semantics.  `SA_RESETHAND` restores the default disposition
when the handler is invoked; without `SA_NODEFER` the triggering signal is
blocked for the duration of the handler. -/
structure HandlerRunState where
  disposition : Disposition
  sigBlocked : Bool
  deriving DecidableEq

/-- Modelled from the spec: entering the handler for a signal whose
disposition carries the given flags — the disposition seen by any further
fault, and whether the triggering signal is blocked meanwhile. -/
def enterHandler (flags : SigActionFlags) : HandlerRunState :=
  { disposition := if flags.resetHand then Disposition.defaultTerminate
                   else Disposition.custom flags,
    sigBlocked := !flags.noDefer }

/-- What a repeated fault (the same signal raised again) does while the
handler is running. -/
inductive RepeatFaultOutcome where
  | terminatedByDefault
  | handlerReentered
  | deliveryBlocked
  deriving DecidableEq

/-- Modelled from the spec: delivery of a repeated fault during handling —
blocked if the signal is masked, otherwise handled per the current
disposition. -/
def repeatFault (st : HandlerRunState) : RepeatFaultOutcome :=
  if st.sigBlocked then RepeatFaultOutcome.deliveryBlocked
  else
    match st.disposition with
    | .defaultTerminate => RepeatFaultOutcome.terminatedByDefault
    | .custom _ => RepeatFaultOutcome.handlerReentered

/-! ### The entry point `main` (main.cpp lines 166-281) -/

/-- The already-parsed command-line configuration reaching `main`'s core:
`-r`, `-l <path>`, `-c <dir>`, `-s <names>` (absent when the option was not
given), `-w`. -/
structure Config where
  respawn : Bool
  logFile : Option String
  configDir : Option String
  screenNames : Option (List String)
  windowed : Bool
  deriving DecidableEq

/-- An observable step of `main` relevant to the claims, in source order. -/
inductive MainEvent where
  | writeExecutablePath (p : String)
  | writePID (pid : Int)
  | installSignalHandler
  | setConfigDir (d : String)
  | installMessageHandler (logFile : String)
  | warnNoScreens
  | exitWith (code : Int)
  | place (pl : Placement)
  | runEventLoop
  deriving DecidableEq

/-- The part of `main` after the identity capture (lines 184-280):
lines 217-224 install the optional handlers; lines 225-238 filter the
screens and `return -1` when no requested screen exists; lines 263-278
place the windows; line 280 enters the event loop. -/
def mainAfterCapture (cfg : Config) (screens : List Screen)
    (windows : List Window) : List MainEvent :=
  (if cfg.respawn then [MainEvent.installSignalHandler] else []) ++
  (match cfg.configDir with
   | some d => [MainEvent.setConfigDir d]
   | none => []) ++
  (match cfg.logFile with
   | some p => [MainEvent.installMessageHandler p]
   | none => []) ++
  (match cfg.screenNames with
   | none =>
     (assignLoop windows screens cfg.windowed).map MainEvent.place ++
       [MainEvent.runEventLoop]
   | some names =>
     let keepers := filterScreens names screens
     if keepers.isEmpty then
       [MainEvent.warnNoScreens, MainEvent.exitWith (-1)]
     else
       (assignLoop windows keepers cfg.windowed).map MainEvent.place ++
         [MainEvent.runEventLoop])

/-- `main` (lines 166-281) as its event sequence, parameterised by the
process inputs: `app.applicationFilePath()`, `applicationPid()`, the parsed
configuration, the enumerated screens and the windows found under the QML
root.  Lines 182-183 capture the process identity first; the remainder is
`mainAfterCapture`. -/
def mainModel (appFilePath : String) (appPid : Int) (cfg : Config)
    (screens : List Screen) (windows : List Window) : List MainEvent :=
  MainEvent.writeExecutablePath appFilePath :: MainEvent.writePID appPid ::
    mainAfterCapture cfg screens windows

/-- `true` exactly on a write to the `grefsonExecutablePath` global. -/
def isExecPathWrite : MainEvent → Bool
  | .writeExecutablePath _ => true
  | _ => false

/-- `true` exactly on a `place` event (a step of the assignment loop). -/
def isPlaceEvent : MainEvent → Bool
  | .place _ => true
  | _ => false

/-- One step of replaying the writes to the `grefsonExecutablePath`
global. -/
def recordStep (acc : Option String) : MainEvent → Option String
  | MainEvent.writeExecutablePath p => some p
  | _ => acc

/-- The value the `grefsonExecutablePath` global holds after a sequence of
events (last write wins; `none` if never written). -/
def recordedExecutablePath (evs : List MainEvent) : Option String :=
  evs.foldl recordStep none

/-- `true` when the action is an `exec` of exactly the given path with no
arguments beyond `argv[0]` (which is the path itself), or not an `exec` at
all. -/
def execUsesPathNoArgs (path : String) : HandlerAction → Bool
  | .exec p argv => p == path && argv == [path]
  | _ => true

/-! ### Helper lemmas -/

/-- The pair a loop-body placement carries is the (window, screen) pair it
was built from, in either mode. -/
theorem pairOf_placeOne (w : Window) (s : Screen) (mode : Bool) :
    pairOf (placeOne w s mode) = (w, s) := by
  cases mode <;> rfl

/-- Forgetting the placements, the assignment loop is the positional zip of
the two input lists, in either mode. -/
theorem assignLoop_map_pairOf (ws : List Window) (ss : List Screen)
    (mode : Bool) : (assignLoop ws ss mode).map pairOf = ws.zip ss := by
  induction ws generalizing ss with
  | nil => cases ss <;> rfl
  | cons w ws ih =>
    cases ss with
    | nil => rfl
    | cons s ss => simp [assignLoop, pairOf_placeOne, ih]

/-- The assignment loop stops at the shorter input. -/
theorem assignLoop_length (ws : List Window) (ss : List Screen)
    (mode : Bool) :
    (assignLoop ws ss mode).length = min ws.length ss.length := by
  induction ws generalizing ss with
  | nil => cases ss <;> simp [assignLoop]
  | cons w ws ih =>
    cases ss with
    | nil => simp [assignLoop]
    | cons s ss => simp [assignLoop, ih, Nat.succ_min_succ]

/-- Index-wise description of the assignment loop's pairs. -/
theorem assignLoop_pair_get (ws : List Window) (ss : List Screen)
    (mode : Bool) (i : Nat) :
    ((assignLoop ws ss mode).map pairOf)[i]? =
      (ws[i]?).bind fun w => (ss[i]?).map fun s => (w, s) := by
  induction ws generalizing ss i with
  | nil => cases ss <;> simp [assignLoop]
  | cons w ws ih =>
    cases ss with
    | nil =>
      cases h : (w :: ws)[i]? <;> simp [assignLoop, h]
    | cons s ss =>
      cases i with
      | zero => simp [assignLoop, pairOf_placeOne]
      | succ i => simpa [assignLoop] using ih ss i

/-- Every element produced by the assignment loop is the loop body applied
to a window and a screen from the inputs. -/
theorem mem_assignLoop (ws : List Window) (ss : List Screen) (mode : Bool)
    (p : Placement) (hp : p ∈ assignLoop ws ss mode) :
    ∃ w s, w ∈ ws ∧ s ∈ ss ∧ p = placeOne w s mode := by
  induction ws generalizing ss with
  | nil => cases ss <;> simp [assignLoop] at hp
  | cons w ws ih =>
    cases ss with
    | nil => simp [assignLoop] at hp
    | cons s ss =>
      simp only [assignLoop, List.mem_cons] at hp
      rcases hp with h | h
      · exact ⟨w, s, List.mem_cons_self .., List.mem_cons_self .., h⟩
      · obtain ⟨w1, s1, hw1, hs1, hph⟩ := ih ss h
        exact ⟨w1, s1, List.mem_cons_of_mem _ hw1, List.mem_cons_of_mem _ hs1, hph⟩

/-- Mapping `place` over a placement list produces no write to the
executable-path global. -/
theorem filter_execPathWrite_map_place (l : List Placement) :
    (l.map MainEvent.place).filter isExecPathWrite = [] := by
  induction l with
  | nil => rfl
  | cons a l ih => simpa [isExecPathWrite] using ih

/-- The part of `main` after the identity capture never writes the
executable-path global again. -/
theorem mainAfterCapture_no_execPathWrite (cfg : Config)
    (screens : List Screen) (windows : List Window) :
    (mainAfterCapture cfg screens windows).filter isExecPathWrite = [] := by
  obtain ⟨resp, logF, confD, scrN, win⟩ := cfg
  cases resp <;> rcases logF with _ | lf <;> rcases confD with _ | cd <;>
    rcases scrN with _ | names <;>
    simp [mainAfterCapture, isExecPathWrite, filter_execPathWrite_map_place] <;>
    split <;>
    simp [isExecPathWrite] <;>
    rintro a (⟨pl, hpl, rfl⟩ | rfl) <;> rfl

/-- Replaying events that contain no write leaves the recorded value
unchanged. -/
theorem foldl_recordStep_no_write (evs : List MainEvent)
    (h : evs.filter isExecPathWrite = []) (acc : Option String) :
    evs.foldl recordStep acc = acc := by
  induction evs generalizing acc with
  | nil => rfl
  | cons e evs ih =>
    rw [List.filter_cons] at h
    rcases he : isExecPathWrite e with _ | _
    · rw [he] at h
      simp only [Bool.false_eq_true, if_neg] at h
      have hstep : recordStep acc e = acc := by
        cases e <;> simp [recordStep] <;> simp [isExecPathWrite] at he
      rw [List.foldl_cons, hstep]
      exact ih h acc
    · rw [he] at h
      simp at h

/-! ### Claim theorems -/

/-- C1: For every ordered window sequence W and ordered display sequence D,
the assignment step produces exactly min(|W|,|D|) pairs, the i-th window of
W paired with the i-th display of D (the pair list is the positional zip,
and the i-th pair exists exactly when both the i-th window and the i-th
display do), in original order; the pairing is identical in windowed and
fullscreen mode, and extra windows or displays are simply left unpaired
(the loop stops at the shorter list — no error path exists). -/
theorem assignment_pairing (ws : List Window) (ss : List Screen)
    (mode : Bool) :
    (assignLoop ws ss mode).length = min ws.length ss.length ∧
    (assignLoop ws ss mode).map pairOf = ws.zip ss ∧
    (∀ i : Nat, ((assignLoop ws ss mode).map pairOf)[i]? =
      (ws[i]?).bind fun w => (ss[i]?).map fun s => (w, s)) ∧
    (assignLoop ws ss true).map pairOf = (assignLoop ws ss false).map pairOf := by
  refine ⟨assignLoop_length ws ss mode, assignLoop_map_pairOf ws ss mode,
    fun i => assignLoop_pair_get ws ss mode i, ?_⟩
  rw [assignLoop_map_pairOf, assignLoop_map_pairOf]

/-- C2: For every log record of severity fatal, whatever the message and
context, `qtMsgLog` performs all its writes (the full record) and then
calls `abort()`, and the abort is the last event — execution never
continues past logging a fatal record. -/
theorem fatal_aborts_after_write (ts : Nat) (ctx : MessageLogContext)
    (msg : String) :
    qtMsgLogEvents ts QtMsgType.QtFatalMsg ctx msg
      = (qtMsgLogWrites ts QtMsgType.QtFatalMsg ctx msg).map LogEvent.write
        ++ [LogEvent.abort] ∧
    (qtMsgLogEvents ts QtMsgType.QtFatalMsg ctx msg).getLast?
      = some LogEvent.abort := by
  have h : qtMsgLogEvents ts QtMsgType.QtFatalMsg ctx msg
      = (qtMsgLogWrites ts QtMsgType.QtFatalMsg ctx msg).map LogEvent.write
        ++ [LogEvent.abort] := by
    simp [qtMsgLogEvents]
  exact ⟨h, by rw [h]; exact List.getLast?_concat _⟩

/-- C4 counterexample: the record with elapsedMillis=1234,
severity=warning, origin="foo:10", message="bar" does NOT render as
`"[   1.234 W] foo:10: bar\n"` — the `%6lld` seconds field is six
characters wide, so the code emits five spaces before the `1`, not
three. -/
theorem log_format_example_refuted :
    qtMsgLogOutput 1234 QtMsgType.QtWarningMsg ⟨some "foo", 10⟩ "bar"
      ≠ "[   1.234 W] foo:10: bar\n" := by
  decide

/-- C4 (amended): the formatter renders every record deterministically as
`[elapsedSeconds.millis severityChar] [origin: ] message\n` with severity
characters debug='d', info='i', warning='W', critical='!', fatal='F'; the
seconds field is right-justified to width 6, so the record with
elapsedMillis=1234, severity=warning, origin="foo:10", message="bar"
renders as `"[     1.234 W] foo:10: bar\n"` (five spaces, not three). -/
theorem log_format_deterministic_amended :
    typeChar QtMsgType.QtDebugMsg = 'd' ∧
    typeChar QtMsgType.QtInfoMsg = 'i' ∧
    typeChar QtMsgType.QtWarningMsg = 'W' ∧
    typeChar QtMsgType.QtCriticalMsg = '!' ∧
    typeChar QtMsgType.QtFatalMsg = 'F' ∧
    (∀ (ts : Nat) (type : QtMsgType) (f : String) (line : Int) (msg : String),
      qtMsgLogWrites ts type ⟨some f, line⟩ msg
        = [timestampField ts (typeChar type), originField f line, msg, "\n"]) ∧
    qtMsgLogOutput 1234 QtMsgType.QtWarningMsg ⟨some "foo", 10⟩ "bar"
      = "[     1.234 W] foo:10: bar\n" :=
  ⟨rfl, rfl, rfl, rfl, rfl, fun _ _ _ _ _ => rfl, by decide⟩

/-- C6: the handler is installed with `SA_RESETHAND | SA_NODEFER |
SA_ONSTACK`, so on invocation the default disposition is restored and the
triggering signal is not blocked during handling; a repeated fault inside
the handler therefore terminates the process via the default disposition
instead of re-entering the handler (and is not left pending by a mask). -/
theorem handler_not_reentered :
    (enterHandler installedFlags).disposition = Disposition.defaultTerminate ∧
    (enterHandler installedFlags).sigBlocked = false ∧
    repeatFault (enterHandler installedFlags)
      = RepeatFaultOutcome.terminatedByDefault := by
  decide

/-- C7: in the parent branch of `signalHandler` (fork returned a positive
child pid) the process grants the child permission to trace it, waits
synchronously on the child, and exits with `EXIT_FAILURE` — the branch is
exactly these three actions, ends in the exit, and the exit status is
non-zero. -/
theorem parent_branch_always_fails (childPid : Int) (sig : Int)
    (gpid : Int) (path : String) :
    signalHandler (ForkResult.inParent childPid) sig gpid path
      = [HandlerAction.setPtracer childPid, HandlerAction.waitFor childPid,
         HandlerAction.exitWith 1] ∧
    (signalHandler (ForkResult.inParent childPid) sig gpid path).getLast?
      = some (HandlerAction.exitWith 1) ∧
    (1 : Int) ≠ 0 :=
  ⟨rfl, rfl, by decide⟩

/-- C3: if a set of requested display names is configured and no enumerated
display's name matches any of them (case-insensitively), the filter yields
the empty list and `main` warns and returns -1: the event sequence ends in
`exitWith (-1)`, contains no placement step and never reaches the event
loop, and -1 is non-zero. -/
theorem empty_filter_exits_before_assignment
    (appFilePath : String) (appPid : Int) (cfg : Config)
    (names : List String) (screens : List Screen) (windows : List Window)
    (hcfg : cfg.screenNames = some names)
    (hnone : ∀ s ∈ screens, ∀ n ∈ names, qtCaseInsensitiveEq n s.name = false) :
    filterScreens names screens = [] ∧
    (mainModel appFilePath appPid cfg screens windows).getLast?
      = some (MainEvent.exitWith (-1)) ∧
    ((mainModel appFilePath appPid cfg screens windows).all
      fun e => !(isPlaceEvent e)) = true ∧
    MainEvent.runEventLoop ∉ mainModel appFilePath appPid cfg screens windows ∧
    (-1 : Int) ≠ 0 := by
  have hemp : filterScreens names screens = [] := by
    rw [filterScreens, List.filter_eq_nil_iff]
    intro s hs
    simp only [List.any_eq_true, not_exists, not_and]
    intro n hn
    simp [hnone s hs n hn]
  obtain ⟨resp, logF, confD, scrN, win⟩ := cfg
  simp only [Config.screenNames] at hcfg
  subst hcfg
  refine ⟨hemp, ?_, ?_, ?_, by decide⟩ <;>
    cases resp <;> rcases logF with _ | lf <;> rcases confD with _ | cd <;>
    simp [mainModel, mainAfterCapture, hemp, isPlaceEvent, List.getLast?]

/-- C5: for every placement the assignment loop produces: in windowed mode
the window is shown non-fullscreen with no geometry write, so it appears in
its natural size at its screen's origin; in fullscreen mode its geometry is
set to exactly the assigned screen's bounds and it is shown fullscreen. -/
theorem placement_mode_policy (ws : List Window) (ss : List Screen)
    (mode : Bool) (p : Placement) (hp : p ∈ assignLoop ws ss mode) :
    p.fullScreen = !mode ∧
    p.geometry = (if mode then none else some p.screen.geometry) ∧
    shownGeometry p =
      (if mode then
        { x := p.screen.geometry.x, y := p.screen.geometry.y,
          width := p.window.naturalGeometry.width,
          height := p.window.naturalGeometry.height }
      else p.screen.geometry) := by
  obtain ⟨w, s, hw, hs, rfl⟩ := mem_assignLoop ws ss mode p hp
  cases mode <;> simp [placeOne, shownGeometry]

/-- C8: the executable path recorded at startup is written exactly once by
`main` (the whole remainder of the run contains no further write), the
recorded value is the startup path, and any respawn exec performed by the
signal handler reading that value execs exactly that path with argv
`[path]` — no arguments beyond `argv[0]`. -/
theorem identity_capture_and_respawn
    (appFilePath : String) (appPid : Int) (cfg : Config)
    (screens : List Screen) (windows : List Window) :
    (mainModel appFilePath appPid cfg screens windows).filter isExecPathWrite
      = [MainEvent.writeExecutablePath appFilePath] ∧
    recordedExecutablePath (mainModel appFilePath appPid cfg screens windows)
      = some appFilePath ∧
    (∀ (sig gpid : Int),
      HandlerAction.exec appFilePath [appFilePath]
        ∈ signalHandler ForkResult.inChild sig gpid appFilePath) ∧
    (∀ (fr : ForkResult) (sig gpid : Int),
      ((signalHandler fr sig gpid appFilePath).all
        (execUsesPathNoArgs appFilePath)) = true) := by
  have htail := mainAfterCapture_no_execPathWrite cfg screens windows
  refine ⟨?_, ?_, ?_, ?_⟩
  · simp [mainModel, List.filter_cons, isExecPathWrite, htail]
  · simp only [recordedExecutablePath, mainModel, List.foldl_cons]
    exact foldl_recordStep_no_write _ htail _
  · intro sig gpid
    simp [signalHandler]
  · intro fr sig gpid
    cases fr <;> simp [signalHandler, execUsesPathNoArgs]

/-- C9: the display-name pre-filter matches case-insensitively — every
enumerated display whose name agrees with some requested name up to letter
case is kept by the filter. -/
theorem filter_case_insensitive (names : List String) (screens : List Screen)
    (s : Screen) (n : String) (hs : s ∈ screens) (hn : n ∈ names)
    (heq : n.data.map Char.toLower = s.name.data.map Char.toLower) :
    s ∈ filterScreens names screens := by
  rw [filterScreens, List.mem_filter]
  refine ⟨hs, ?_⟩
  rw [List.any_eq_true]
  exact ⟨n, hn, by simp [qtCaseInsensitiveEq, heq]⟩

/-- C10: when the origin text (function name, ":", line number, ": ")
exceeds 63 bytes, the origin segment `qtMsgLog` writes is its first 63
bytes (the 64-byte buffer keeps one byte for the NUL); the message itself
is written directly afterwards, whole, never through the buffer. -/
theorem origin_truncated_message_intact (ts : Nat) (type : QtMsgType)
    (f : String) (line : Int) (msg : String)
    (h : 63 < (originText f line).length) :
    originField f line = String.mk ((originText f line).data.take 63) ∧
    (originField f line).length = 63 ∧
    qtMsgLogWrites ts type ⟨some f, line⟩ msg
      = [timestampField ts (typeChar type), originField f line, msg, "\n"] := by
  refine ⟨rfl, ?_, rfl⟩
  show (String.mk ((originText f line).data.take 63)).length = 63
  have hlen : (originText f line).length = (originText f line).data.length := rfl
  rw [hlen] at h
  simp only [String.length_mk, List.length_take]
  omega

/-! ### Witnesses -/

/-- Witness for C3 at the spec's concrete input: requested names
{"nonexistent"} against displays {"HDMI-1", "eDP-1"}. -/
theorem empty_filter_exits_before_assignment_witness :
    filterScreens ["nonexistent"]
      [⟨"HDMI-1", ⟨0, 0, 1920, 1080⟩⟩, ⟨"eDP-1", ⟨1920, 0, 1280, 800⟩⟩] = [] ∧
    (mainModel "/usr/bin/grefsen" 1000
      ⟨false, none, none, some ["nonexistent"], false⟩
      [⟨"HDMI-1", ⟨0, 0, 1920, 1080⟩⟩, ⟨"eDP-1", ⟨1920, 0, 1280, 800⟩⟩]
      []).getLast? = some (MainEvent.exitWith (-1)) ∧
    ((mainModel "/usr/bin/grefsen" 1000
      ⟨false, none, none, some ["nonexistent"], false⟩
      [⟨"HDMI-1", ⟨0, 0, 1920, 1080⟩⟩, ⟨"eDP-1", ⟨1920, 0, 1280, 800⟩⟩]
      []).all fun e => !(isPlaceEvent e)) = true ∧
    MainEvent.runEventLoop ∉ mainModel "/usr/bin/grefsen" 1000
      ⟨false, none, none, some ["nonexistent"], false⟩
      [⟨"HDMI-1", ⟨0, 0, 1920, 1080⟩⟩, ⟨"eDP-1", ⟨1920, 0, 1280, 800⟩⟩]
      [] ∧
    (-1 : Int) ≠ 0 :=
  empty_filter_exits_before_assignment "/usr/bin/grefsen" 1000
    ⟨false, none, none, some ["nonexistent"], false⟩ ["nonexistent"]
    [⟨"HDMI-1", ⟨0, 0, 1920, 1080⟩⟩, ⟨"eDP-1", ⟨1920, 0, 1280, 800⟩⟩] []
    rfl (by decide)

/-- Witness for C5: the single pair of a one-window, one-screen run in
fullscreen mode has its geometry forced to the screen's bounds and is shown
fullscreen. -/
theorem placement_mode_policy_witness :
    (placeOne ⟨0, ⟨3, 4, 300, 200⟩⟩ ⟨"HDMI-1", ⟨10, 20, 1920, 1080⟩⟩
      false).fullScreen = true ∧
    (placeOne ⟨0, ⟨3, 4, 300, 200⟩⟩ ⟨"HDMI-1", ⟨10, 20, 1920, 1080⟩⟩
      false).geometry = some ⟨10, 20, 1920, 1080⟩ ∧
    shownGeometry (placeOne ⟨0, ⟨3, 4, 300, 200⟩⟩
      ⟨"HDMI-1", ⟨10, 20, 1920, 1080⟩⟩ false) = ⟨10, 20, 1920, 1080⟩ :=
  placement_mode_policy [⟨0, ⟨3, 4, 300, 200⟩⟩]
    [⟨"HDMI-1", ⟨10, 20, 1920, 1080⟩⟩] false
    (placeOne ⟨0, ⟨3, 4, 300, 200⟩⟩ ⟨"HDMI-1", ⟨10, 20, 1920, 1080⟩⟩ false)
    (by decide)

/-- Witness for C9: requesting {"hdmi-1"} keeps a display named
"HDMI-1". -/
theorem filter_case_insensitive_witness :
    Screen.mk "HDMI-1" ⟨0, 0, 1920, 1080⟩ ∈
      filterScreens ["hdmi-1"] [⟨"HDMI-1", ⟨0, 0, 1920, 1080⟩⟩] :=
  filter_case_insensitive ["hdmi-1"] [⟨"HDMI-1", ⟨0, 0, 1920, 1080⟩⟩]
    ⟨"HDMI-1", ⟨0, 0, 1920, 1080⟩⟩ "hdmi-1" (by decide) (by decide) (by decide)

/-- Witness for C10: a 70-character function name at line 10 makes the
origin text 75 bytes long; the written origin segment is its first 63
bytes while the message "bar" is written whole. -/
theorem origin_truncated_message_intact_witness :
    originField (String.mk (List.replicate 70 'a')) 10
      = String.mk ((originText (String.mk (List.replicate 70 'a')) 10).data.take 63) ∧
    (originField (String.mk (List.replicate 70 'a')) 10).length = 63 ∧
    qtMsgLogWrites 0 QtMsgType.QtDebugMsg
      ⟨some (String.mk (List.replicate 70 'a')), 10⟩ "bar"
      = [timestampField 0 (typeChar QtMsgType.QtDebugMsg),
         originField (String.mk (List.replicate 70 'a')) 10, "bar", "\n"] :=
  origin_truncated_message_intact 0 QtMsgType.QtDebugMsg
    (String.mk (List.replicate 70 'a')) 10 "bar" (by decide)

end Grefsen
